import Mathlib

/-!
# Shallow embedding of `gpt_text_to_speech_downloader.py`

This file embeds the command-sanitization and safe-execution pipeline of the
repository: caret stripping and `shlex.split` tokenization (source lines
64-75), the `subprocess.run` invocation (lines 85-90), the result classifier
and probe/transcode steps (lines 93-165), the input validation (lines 52-57),
and the `finally` cleanup block (lines 170-186).

Pure Python string operations become Lean functions on `String`/`List Char`.
The external world (the transfer tool's exit status and side effects, the
ffprobe and ffmpeg results, and whether `os.remove` succeeds) is an explicit
oracle record `World`; the pipeline is then a pure function of the two user
inputs and that oracle.

Note on the source's control flow: lines 120, 127 and 130 of the source are
`return` statements at module top level (inside `if st.button(...)`, not
inside any function), which CPython rejects with `SyntaxError: 'return'
outside function`.  The embedding models the evidently intended semantics
(the comments at lines 119 and 126 say the conversion must not proceed):
each `return` exits the handler block early, with the `finally` cleanup
still running.
-/

namespace GptTts

/-- Python `curl_command_input.replace('^', '')` (source line 70): every caret
character is removed, wherever it occurs, including inside quoted literals. -/
def removeCarets (s : String) : String :=
  String.mk (s.data.filter (fun c => c != '^'))

/-- `os.path.basename` on POSIX (source line 64): everything after the last
slash of the path. -/
def basename (p : String) : String :=
  String.mk (p.data.foldl (fun acc c => if c = '/' then [] else acc ++ [c]) [])

/-- Result of `shlex.split` (source line 73): either the token list, or one of
the two `ValueError`s the CPython implementation raises (with message
`No closing quotation` for an unterminated quote, `No escaped character` for a
trailing backslash). -/
inductive ShlexResult where
  | ok (tokens : List String)
  | noClosingQuotation
  | noEscapedCharacter
deriving DecidableEq

/-- Lexer state of CPython `shlex` in posix mode with `whitespace_split`:
`ws` is state `' '`, `word` is state `'a'`, `sq`/`dq` are the two quote
states, `escWord`/`escDq` are the backslash state with `escapedstate` equal
to `'a'` / `'"'` respectively. -/
inductive SMode where
  | ws | word | sq | dq | escWord | escDq
deriving DecidableEq

/-- The single-quote character, code point 39. -/
def squote : Char := Char.ofNat 39

/-- Running state of the tokenizer: emitted tokens, current token characters,
the per-token `quoted` flag, and the lexer mode. -/
structure SState where
  acc : List String
  tok : List Char
  quoted : Bool
  mode : SMode
deriving DecidableEq

/-- CPython `shlex.whitespace = ' \t\r\n'`. -/
def isShlexWs (c : Char) : Bool :=
  c = ' ' || c = '\t' || c = '\r' || c = '\n'

/-- Emit the current token (posix rule: an empty token is emitted only when it
was quoted, which is checked at the call sites) and reset the per-token
state. -/
def emitTok (st : SState) : SState :=
  { acc := st.acc ++ [String.mk st.tok], tok := [], quoted := false, mode := SMode.ws }

/-- One character step of CPython `shlex.read_token` with `posix=True`,
`whitespace_split=True`, `commenters=''` (the configuration `shlex.split`
uses). -/
def shlexStep (st : SState) (c : Char) : SState :=
  match st.mode with
  | SMode.ws =>
      if isShlexWs c then
        (if st.tok ≠ [] ∨ st.quoted = true then emitTok st else st)
      else if c = '\\' then { st with mode := SMode.escWord }
      else if c = squote then { st with mode := SMode.sq }
      else if c = '"' then { st with mode := SMode.dq }
      else { st with tok := st.tok ++ [c], mode := SMode.word }
  | SMode.word =>
      if isShlexWs c then emitTok st
      else if c = squote then { st with mode := SMode.sq }
      else if c = '"' then { st with mode := SMode.dq }
      else if c = '\\' then { st with mode := SMode.escWord }
      else { st with tok := st.tok ++ [c] }
  | SMode.sq =>
      if c = squote then { st with quoted := true, mode := SMode.word }
      else { st with quoted := true, tok := st.tok ++ [c] }
  | SMode.dq =>
      if c = '"' then { st with quoted := true, mode := SMode.word }
      else if c = '\\' then { st with quoted := true, mode := SMode.escDq }
      else { st with quoted := true, tok := st.tok ++ [c] }
  | SMode.escWord =>
      { st with tok := st.tok ++ [c], mode := SMode.word }
  | SMode.escDq =>
      if c = '\\' ∨ c = '"' then { st with tok := st.tok ++ [c], mode := SMode.dq }
      else { st with tok := st.tok ++ ['\\', c], mode := SMode.dq }

/-- End-of-input handling of `shlex.read_token`: an open quote state raises
`No closing quotation`, a pending escape raises `No escaped character`,
otherwise the final token is emitted when nonempty or quoted. -/
def shlexFinish (st : SState) : ShlexResult :=
  match st.mode with
  | SMode.sq => ShlexResult.noClosingQuotation
  | SMode.dq => ShlexResult.noClosingQuotation
  | SMode.escWord => ShlexResult.noEscapedCharacter
  | SMode.escDq => ShlexResult.noEscapedCharacter
  | _ =>
      if st.tok ≠ [] ∨ st.quoted = true then ShlexResult.ok (st.acc ++ [String.mk st.tok])
      else ShlexResult.ok st.acc

/-- `shlex.split` (source line 73): POSIX shell-quoting tokenization of the
cleaned command string, performed without any shell. -/
def shlexSplit (s : String) : ShlexResult :=
  shlexFinish (s.data.foldl shlexStep { acc := [], tok := [], quoted := false, mode := SMode.ws })

/-- The command sanitizer, source lines 64-75: strip every caret, tokenize
with `shlex.split`, then `command_list.extend(["--output", aac_filename])`
where `aac_filename = os.path.basename(file_name_input) + ".aac"`. -/
def sanitize (cmd fname : String) : ShlexResult :=
  match shlexSplit (removeCarets cmd) with
  | ShlexResult.ok toks =>
      ShlexResult.ok (toks ++ ["--output", basename fname ++ ".aac"])
  | ShlexResult.noClosingQuotation => ShlexResult.noClosingQuotation
  | ShlexResult.noEscapedCharacter => ShlexResult.noEscapedCharacter

/-- The `subprocess.run` call site, source lines 85-90: the argument list is
passed as a list (so `shell` keeps its default `False`), with
`capture_output=True`, `text=True`, `check=False`. -/
structure ProcessInvocation where
  argv : List String
  useShell : Bool
  captureOutput : Bool
  text : Bool
  check : Bool
deriving DecidableEq

/-- `subprocess.run(command_list, capture_output=True, text=True, check=False)`
(source lines 85-90). -/
def subprocessRun (command_list : List String) : ProcessInvocation :=
  { argv := command_list, useShell := false, captureOutput := true, text := true, check := false }

/-- OS exec-boundary semantics: with `shell=False`, `subprocess` hands the
argument vector to the process-creation facility untouched; with `shell=True`
it would instead hand a concatenated string to a shell, and no vector reaches
the child verbatim. -/
def childArgv (p : ProcessInvocation) : Option (List String) :=
  if p.useShell then none else some p.argv

/-- The program the OS is asked to start: the first vector element when no
shell is interposed. -/
def childProgram (p : ProcessInvocation) : Option String :=
  if p.useShell then none else p.argv.head?

/-- The argument list the child receives: the remaining vector elements when
no shell is interposed. -/
def childArgs (p : ProcessInvocation) : List String :=
  if p.useShell then [] else p.argv.tail

/-- The `CompletedProcess` data the code reads: `returncode`, `stdout`,
`stderr` (source lines 93-107). -/
structure ExecutionResult where
  returncode : Int
  stdout : String
  stderr : String
deriving DecidableEq

/-- Oracle for `ffmpeg.probe(aac_filename)` (source lines 115-130): a
successful probe with or without streams (`probe_result.get('streams')`
truthy or not), an `ffmpeg.Error`, or any other exception. -/
inductive ProbeResult where
  | ok (hasStreams : Bool)
  | ffmpegError (stderrText : String)
  | otherError (msg : String)
deriving DecidableEq

/-- Oracle for the `ffmpeg ... .run(...)` conversion (source lines 140-165):
success, an `ffmpeg.Error`, or any other exception. -/
inductive TranscodeResult where
  | ok
  | ffmpegError (stderrText : String)
  | otherError (msg : String)
deriving DecidableEq

/-- The tagged outcome of one run, one constructor per terminal branch of the
handler (source lines 54-169). -/
inductive Outcome where
  | validationErrorNoCommand
  | validationErrorNoFilename
  | commandFailed (status : Int) (stderrText : String) (malformedUrlHint : Bool)
  | artifactMissing (stdoutText stderrText : String)
  | invalidArtifact (aacPath : String)
  | probeError (stderrText : String)
  | probeUnexpected (msg : String)
  | transcodeFailed (stderrText : String)
  | transcodeUnexpected (msg : String)
  | success (mp3Path : String)
  | unexpectedError (msg : String)
deriving DecidableEq

/-- Whether the outcome carries the malformed-URL hint of source lines
95-99. -/
def hasMalformedUrlHint : Outcome → Bool
  | Outcome.commandFailed _ _ h => h
  | _ => false

/-- Whether the outcome is the generic `except Exception` report of source
lines 167-169. -/
def isGenericUnexpectedReport : Outcome → Bool
  | Outcome.unexpectedError _ => true
  | _ => false

/-- The text of `st.error(f"An unexpected error occurred: {e}")` (source line
169). -/
def unexpectedDisplay (msg : String) : String :=
  "An unexpected error occurred: " ++ msg

/-- The message of the `FileNotFoundError` that `subprocess.run` raises when
the program named by the first vector element is not on the path; it reaches
the user through the generic handler of source lines 167-169. -/
def fileNotFoundDisplay (command_list : List String) : String :=
  unexpectedDisplay
    ("[Errno 2] No such file or directory: \x27" ++ (command_list.head?.getD "") ++ "\x27")

/-- The `st.warning` text of source lines 178 and 186 when `os.remove`
fails (the trailing `OSError` detail is elided). -/
def cleanupWarnMsg (p : String) : String :=
  "Could not remove temporary file \x27" ++ p ++ "\x27"

/-- Everything the handler has decided before the `finally` block runs:
the outcome, whether and how `subprocess.run` was called, whether
`shlex.split` was reached, whether the conversion was attempted, which paths
were registered for cleanup (`aac_file`, `mp3_file_path`, source lines 60-61,
110, 148), and which of the two candidate paths exist on disk. -/
structure CoreResult where
  outcome : Outcome
  invocation : Option ProcessInvocation
  tokenized : Option ShlexResult
  transcodeInvoked : Bool
  registeredAac : Option String
  registeredMp3 : Option String
  diskAac : Bool
  diskMp3 : Bool
deriving DecidableEq

/-- The result classifier and conversion steps, source lines 93-165:
non-zero exit is `CommandFailed` with the hint exactly when the status is 3
(lines 93-101); exit 0 with the output file absent is `ArtifactMissing`
(lines 102-107); otherwise the file is registered (line 110), probed (lines
112-130, early exit on a failed probe), and only then converted (lines
132-165). -/
def classifyAndConvert (aacFilename mp3Filename : String) (inv : ProcessInvocation)
    (tk : ShlexResult) (r : ExecutionResult) (outputExists : Bool)
    (probe : ProbeResult) (transcode : TranscodeResult) (transcodeCreatesFile : Bool) :
    CoreResult :=
  if r.returncode ≠ 0 then
    { outcome := Outcome.commandFailed r.returncode r.stderr (decide (r.returncode = 3)),
      invocation := some inv, tokenized := some tk, transcodeInvoked := false,
      registeredAac := none, registeredMp3 := none, diskAac := outputExists, diskMp3 := false }
  else if outputExists = false then
    { outcome := Outcome.artifactMissing r.stdout r.stderr,
      invocation := some inv, tokenized := some tk, transcodeInvoked := false,
      registeredAac := none, registeredMp3 := none, diskAac := false, diskMp3 := false }
  else
    match probe with
    | ProbeResult.ok false =>
        { outcome := Outcome.invalidArtifact aacFilename,
          invocation := some inv, tokenized := some tk, transcodeInvoked := false,
          registeredAac := some aacFilename, registeredMp3 := none,
          diskAac := true, diskMp3 := false }
    | ProbeResult.ffmpegError e =>
        { outcome := Outcome.probeError e,
          invocation := some inv, tokenized := some tk, transcodeInvoked := false,
          registeredAac := some aacFilename, registeredMp3 := none,
          diskAac := true, diskMp3 := false }
    | ProbeResult.otherError m =>
        { outcome := Outcome.probeUnexpected m,
          invocation := some inv, tokenized := some tk, transcodeInvoked := false,
          registeredAac := some aacFilename, registeredMp3 := none,
          diskAac := true, diskMp3 := false }
    | ProbeResult.ok true =>
        match transcode with
        | TranscodeResult.ok =>
            { outcome := Outcome.success mp3Filename,
              invocation := some inv, tokenized := some tk, transcodeInvoked := true,
              registeredAac := some aacFilename, registeredMp3 := some mp3Filename,
              diskAac := true, diskMp3 := true }
        | TranscodeResult.ffmpegError e =>
            { outcome := Outcome.transcodeFailed e,
              invocation := some inv, tokenized := some tk, transcodeInvoked := true,
              registeredAac := some aacFilename, registeredMp3 := none,
              diskAac := true, diskMp3 := transcodeCreatesFile }
        | TranscodeResult.otherError m =>
            { outcome := Outcome.transcodeUnexpected m,
              invocation := some inv, tokenized := some tk, transcodeInvoked := true,
              registeredAac := some aacFilename, registeredMp3 := none,
              diskAac := true, diskMp3 := transcodeCreatesFile }

/-- The handler body before the `finally` block, source lines 52-169:
input validation (lines 54-57), filename sanitization and command cleaning
(lines 64-75), the `subprocess.run` boundary (lines 85-90, with a
`FileNotFoundError` when the program is absent, caught by the generic
handler of lines 167-169, as is the `ValueError` from `shlex.split`), then
`classifyAndConvert`. -/
def runCore (cmd fname : String) (found : Bool) (r : ExecutionResult) (outputExists : Bool)
    (probe : ProbeResult) (transcode : TranscodeResult) (transcodeCreatesFile : Bool) :
    CoreResult :=
  if cmd = "" then
    { outcome := Outcome.validationErrorNoCommand,
      invocation := none, tokenized := none, transcodeInvoked := false,
      registeredAac := none, registeredMp3 := none, diskAac := false, diskMp3 := false }
  else if fname = "" then
    { outcome := Outcome.validationErrorNoFilename,
      invocation := none, tokenized := none, transcodeInvoked := false,
      registeredAac := none, registeredMp3 := none, diskAac := false, diskMp3 := false }
  else
    match shlexSplit (removeCarets cmd) with
    | ShlexResult.noClosingQuotation =>
        { outcome := Outcome.unexpectedError (unexpectedDisplay "No closing quotation"),
          invocation := none, tokenized := some ShlexResult.noClosingQuotation,
          transcodeInvoked := false, registeredAac := none, registeredMp3 := none,
          diskAac := false, diskMp3 := false }
    | ShlexResult.noEscapedCharacter =>
        { outcome := Outcome.unexpectedError (unexpectedDisplay "No escaped character"),
          invocation := none, tokenized := some ShlexResult.noEscapedCharacter,
          transcodeInvoked := false, registeredAac := none, registeredMp3 := none,
          diskAac := false, diskMp3 := false }
    | ShlexResult.ok toks =>
        if found then
          classifyAndConvert (basename fname ++ ".aac") (basename fname ++ ".mp3")
            (subprocessRun (toks ++ ["--output", basename fname ++ ".aac"]))
            (ShlexResult.ok toks) r outputExists probe transcode transcodeCreatesFile
        else
          { outcome := Outcome.unexpectedError
              (fileNotFoundDisplay (toks ++ ["--output", basename fname ++ ".aac"])),
            invocation := some (subprocessRun (toks ++ ["--output", basename fname ++ ".aac"])),
            tokenized := some (ShlexResult.ok toks), transcodeInvoked := false,
            registeredAac := none, registeredMp3 := none, diskAac := false, diskMp3 := false }

/-- The environment of one run: whether the program named by the vector is on
the path, what the transfer tool returns and whether it leaves the output
file on disk, the probe and conversion oracles, whether a failed conversion
leaves a partial file, and whether each `os.remove` call fails. -/
structure World where
  executableFound : Bool
  exec : ExecutionResult
  executorCreatesFile : Bool
  probeResult : ProbeResult
  transcodeResult : TranscodeResult
  transcodeCreatesFile : Bool
  removeAacFails : Bool
  removeMp3Fails : Bool
deriving DecidableEq

/-- Observable result of a whole run, after the `finally` block. -/
structure RunResult where
  outcome : Outcome
  invocation : Option ProcessInvocation
  tokenized : Option ShlexResult
  transcodeInvoked : Bool
  registeredAac : Option String
  registeredMp3 : Option String
  finalDiskAac : Bool
  finalDiskMp3 : Bool
  deleted : List String
  cleanupWarnings : List String
deriving DecidableEq

/-- One arm of the `finally` block (source lines 173-178 for the aac path,
179-186 for the mp3 path): if the path was registered and still exists,
`os.remove` it; an `OSError` leaves the file and produces a warning only.
Returns (still on disk, deleted paths, warnings). -/
def cleanupPath (registered : Option String) (onDisk : Bool) (removeFails : Bool) :
    Bool × List String × List String :=
  match registered with
  | none => (onDisk, [], [])
  | some p =>
      if onDisk then
        (if removeFails then (true, [], [cleanupWarnMsg p]) else (false, [p], []))
      else (false, [], [])

/-- The `finally` block, source lines 170-186, applied to the handler result:
it only deletes registered paths and emits warnings; the outcome is left
untouched. -/
def applyCleanup (c : CoreResult) (removeAacFails removeMp3Fails : Bool) : RunResult :=
  { outcome := c.outcome
    invocation := c.invocation
    tokenized := c.tokenized
    transcodeInvoked := c.transcodeInvoked
    registeredAac := c.registeredAac
    registeredMp3 := c.registeredMp3
    finalDiskAac := (cleanupPath c.registeredAac c.diskAac removeAacFails).1
    finalDiskMp3 := (cleanupPath c.registeredMp3 c.diskMp3 removeMp3Fails).1
    deleted := (cleanupPath c.registeredAac c.diskAac removeAacFails).2.1 ++
      (cleanupPath c.registeredMp3 c.diskMp3 removeMp3Fails).2.1
    cleanupWarnings := (cleanupPath c.registeredAac c.diskAac removeAacFails).2.2 ++
      (cleanupPath c.registeredMp3 c.diskMp3 removeMp3Fails).2.2 }

/-- One whole run of the button handler: core logic then `finally` cleanup. -/
def runApp (cmd fname : String) (w : World) : RunResult :=
  applyCleanup
    (runCore cmd fname w.executableFound w.exec w.executorCreatesFile
      w.probeResult w.transcodeResult w.transcodeCreatesFile)
    w.removeAacFails w.removeMp3Fails

/-- Does `needle` occur as a prefix of `hay`? Helper for `occursIn`. -/
def charsStart : List Char → List Char → Bool
  | [], _ => true
  | _ :: _, [] => false
  | a :: as, b :: bs => a == b && charsStart as bs

/-- Does `needle` occur contiguously anywhere inside `hay`? Used to state that
an error message does (not) mention a given text. -/
def occursIn (needle hay : List Char) : Bool :=
  match hay with
  | [] => charsStart needle []
  | _ :: t => charsStart needle hay || occursIn needle t

/-- A world in which everything succeeds: program found, exit 0, file
created, probe finds streams, conversion succeeds, removals succeed. -/
def defaultWorld : World :=
  { executableFound := true
    exec := { returncode := 0, stdout := "", stderr := "" }
    executorCreatesFile := true
    probeResult := ProbeResult.ok true
    transcodeResult := TranscodeResult.ok
    transcodeCreatesFile := true
    removeAacFails := false
    removeMp3Fails := false }

/-- A world in which the transfer tool is not installed. -/
def worldNoCurl : World :=
  { defaultWorld with executableFound := false }

/-- A world in which curl exits 18 (partial file) but has already created the
output file on disk. -/
def worldPartialFile : World :=
  { defaultWorld with
      exec := { returncode := 18, stdout := "", stderr := "curl: (18) transfer closed" },
      executorCreatesFile := true }

/-- Inversion for a successful sanitizer run: the output vector is the cleaned
command's tokens followed by the appended `--output` pair. -/
theorem sanitize_ok_inv (cmd fname : String) (v : List String)
    (h : sanitize cmd fname = ShlexResult.ok v) :
    ∃ toks, shlexSplit (removeCarets cmd) = ShlexResult.ok toks ∧
      v = toks ++ ["--output", basename fname ++ ".aac"] := by
  unfold sanitize at h
  cases hs : shlexSplit (removeCarets cmd) with
  | ok toks =>
      rw [hs] at h
      refine ⟨toks, rfl, ?_⟩
      injection h with h2
      exact h2.symm
  | noClosingQuotation => rw [hs] at h; exact ShlexResult.noConfusion h
  | noEscapedCharacter => rw [hs] at h; exact ShlexResult.noConfusion h

/-- Caret removal leaves no caret behind, wherever it occurred. -/
theorem removeCarets_no_caret (s : String) : ∀ c ∈ (removeCarets s).data, c ≠ '^' := by
  intro c hc
  have hc' : c ∈ List.filter (fun c => c != '^') s.data := hc
  have h2 : (c != '^') = true := (List.mem_filter.mp hc').2
  simpa using h2

/-- Auxiliary invariant for `basename`: the fold never accumulates a slash. -/
theorem basename_aux (l : List Char) (acc : List Char) (h : '/' ∉ acc) :
    '/' ∉ l.foldl (fun a c => if c = '/' then [] else a ++ [c]) acc := by
  induction l generalizing acc with
  | nil => simpa using h
  | cons c t ih =>
      simp only [List.foldl_cons]
      by_cases hc : c = '/'
      · rw [if_pos hc]
        exact ih [] (by simp)
      · rw [if_neg hc]
        refine ih (acc ++ [c]) ?_
        intro hm
        rcases List.mem_append.mp hm with h1 | h1
        · exact h h1
        · simp only [List.mem_singleton] at h1
          exact hc h1.symm

/-- `basename` output contains no directory separator. -/
theorem basename_no_slash (p : String) : ∀ c ∈ (basename p).data, c ≠ '/' := by
  intro c hc hce
  subst hce
  have hc' : '/' ∈ p.data.foldl (fun a c => if c = '/' then [] else a ++ [c]) [] := hc
  exact basename_aux p.data [] (by simp) hc'

/-- A registered path whose removal succeeds is gone after cleanup. -/
theorem cleanupPath_fst_false (reg : Option String) (d : Bool) (p : String)
    (hp : reg = some p) : (cleanupPath reg d false).1 = false := by
  subst hp
  cases d <;> simp [cleanupPath]

/-- C1: every argument vector produced by the sanitizer is passed to the OS
process-creation facility verbatim and with no shell interposed
(`shell=False`): the child is started from the first token as program and the
remaining tokens as its arguments, so a shell metacharacter inside a token
stays literal data inside that one argument and is never shell syntax. -/
theorem C1_vector_executed_without_shell (cmd fname : String) (v : List String)
    (h : sanitize cmd fname = ShlexResult.ok v) :
    (subprocessRun v).useShell = false ∧
    (subprocessRun v).argv = v ∧
    childArgv (subprocessRun v) = some v ∧
    childProgram (subprocessRun v) = v.head? ∧
    childArgs (subprocessRun v) = v.tail ∧
    v ≠ [] := by
  refine ⟨rfl, rfl, rfl, rfl, rfl, ?_⟩
  obtain ⟨toks, _, hv⟩ := sanitize_ok_inv cmd fname v h
  subst hv
  simp

/-- Witness for C1 at a token stuffed with shell metacharacters: the sanitizer
keeps `a;|`x`$(y) rm -rf /` as one token, and the executor hands the whole
vector, that token included, to the OS with no shell. -/
theorem C1_vector_executed_without_shell_witness :
    sanitize "curl \"a;|\x60x\x60$(y) rm -rf /\"" "clip" =
      ShlexResult.ok ["curl", "a;|\x60x\x60$(y) rm -rf /", "--output", "clip.aac"] ∧
    ((subprocessRun ["curl", "a;|\x60x\x60$(y) rm -rf /", "--output", "clip.aac"]).useShell = false ∧
     (subprocessRun ["curl", "a;|\x60x\x60$(y) rm -rf /", "--output", "clip.aac"]).argv =
       ["curl", "a;|\x60x\x60$(y) rm -rf /", "--output", "clip.aac"] ∧
     childArgv (subprocessRun ["curl", "a;|\x60x\x60$(y) rm -rf /", "--output", "clip.aac"]) =
       some ["curl", "a;|\x60x\x60$(y) rm -rf /", "--output", "clip.aac"] ∧
     childProgram (subprocessRun ["curl", "a;|\x60x\x60$(y) rm -rf /", "--output", "clip.aac"]) =
       (["curl", "a;|\x60x\x60$(y) rm -rf /", "--output", "clip.aac"] : List String).head? ∧
     childArgs (subprocessRun ["curl", "a;|\x60x\x60$(y) rm -rf /", "--output", "clip.aac"]) =
       (["curl", "a;|\x60x\x60$(y) rm -rf /", "--output", "clip.aac"] : List String).tail ∧
     (["curl", "a;|\x60x\x60$(y) rm -rf /", "--output", "clip.aac"] : List String) ≠ []) :=
  ⟨by decide, C1_vector_executed_without_shell "curl \"a;|\x60x\x60$(y) rm -rf /\"" "clip"
    ["curl", "a;|\x60x\x60$(y) rm -rf /", "--output", "clip.aac"] (by decide)⟩

/-- C2: exit status 0 with the expected output path absent always classifies
as `ArtifactMissing` carrying the subprocess stdout and stderr, never as
`Success`, and the conversion step is not reached (source lines 102-107). -/
theorem C2_exit_zero_missing_artifact (aacF mp3F : String) (inv : ProcessInvocation)
    (tk : ShlexResult) (r : ExecutionResult) (outputExists : Bool)
    (probe : ProbeResult) (t : TranscodeResult) (tc : Bool)
    (h0 : r.returncode = 0) (hex : outputExists = false) :
    (classifyAndConvert aacF mp3F inv tk r outputExists probe t tc).outcome =
      Outcome.artifactMissing r.stdout r.stderr ∧
    (classifyAndConvert aacF mp3F inv tk r outputExists probe t tc).transcodeInvoked = false ∧
    ∀ p, (classifyAndConvert aacF mp3F inv tk r outputExists probe t tc).outcome ≠
      Outcome.success p := by
  subst hex
  unfold classifyAndConvert
  rw [h0]
  simp

/-- Witness for C2 at a concrete execution result with exit 0 and no file. -/
theorem C2_exit_zero_missing_artifact_witness :
    (({ returncode := 0, stdout := "out", stderr := "err" } : ExecutionResult).returncode = 0) ∧
    ((classifyAndConvert "clip.aac" "clip.mp3" (subprocessRun ["curl"]) (ShlexResult.ok ["curl"])
        { returncode := 0, stdout := "out", stderr := "err" } false
        (ProbeResult.ok true) TranscodeResult.ok false).outcome =
      Outcome.artifactMissing "out" "err" ∧
     (classifyAndConvert "clip.aac" "clip.mp3" (subprocessRun ["curl"]) (ShlexResult.ok ["curl"])
        { returncode := 0, stdout := "out", stderr := "err" } false
        (ProbeResult.ok true) TranscodeResult.ok false).transcodeInvoked = false ∧
     ∀ p, (classifyAndConvert "clip.aac" "clip.mp3" (subprocessRun ["curl"]) (ShlexResult.ok ["curl"])
        { returncode := 0, stdout := "out", stderr := "err" } false
        (ProbeResult.ok true) TranscodeResult.ok false).outcome ≠ Outcome.success p) :=
  ⟨rfl, C2_exit_zero_missing_artifact _ _ _ _ _ _ _ _ _ rfl rfl⟩

/-- C3: a non-zero exit status always classifies as `CommandFailed` carrying
the status and the stderr diagnostic, the conversion step is not reached, and
the malformed-URL hint is attached exactly when the status equals 3 (source
lines 93-101). -/
theorem C3_nonzero_command_failed (aacF mp3F : String) (inv : ProcessInvocation)
    (tk : ShlexResult) (r : ExecutionResult) (outputExists : Bool)
    (probe : ProbeResult) (t : TranscodeResult) (tc : Bool)
    (h : r.returncode ≠ 0) :
    (classifyAndConvert aacF mp3F inv tk r outputExists probe t tc).outcome =
      Outcome.commandFailed r.returncode r.stderr (decide (r.returncode = 3)) ∧
    (classifyAndConvert aacF mp3F inv tk r outputExists probe t tc).transcodeInvoked = false ∧
    (hasMalformedUrlHint
        (classifyAndConvert aacF mp3F inv tk r outputExists probe t tc).outcome = true ↔
      r.returncode = 3) := by
  unfold classifyAndConvert
  rw [if_pos h]
  refine ⟨rfl, rfl, ?_⟩
  simp [hasMalformedUrlHint]

/-- Witness for C3 at exit status 3: `CommandFailed` with the hint set. -/
theorem C3_nonzero_command_failed_witness :
    (({ returncode := 3, stdout := "", stderr := "curl: (3) bad URL" } : ExecutionResult).returncode ≠ 0) ∧
    ((classifyAndConvert "clip.aac" "clip.mp3" (subprocessRun ["curl"]) (ShlexResult.ok ["curl"])
        { returncode := 3, stdout := "", stderr := "curl: (3) bad URL" } true
        (ProbeResult.ok true) TranscodeResult.ok false).outcome =
      Outcome.commandFailed 3 "curl: (3) bad URL" (decide ((3 : Int) = 3)) ∧
     (classifyAndConvert "clip.aac" "clip.mp3" (subprocessRun ["curl"]) (ShlexResult.ok ["curl"])
        { returncode := 3, stdout := "", stderr := "curl: (3) bad URL" } true
        (ProbeResult.ok true) TranscodeResult.ok false).transcodeInvoked = false ∧
     (hasMalformedUrlHint
        (classifyAndConvert "clip.aac" "clip.mp3" (subprocessRun ["curl"]) (ShlexResult.ok ["curl"])
          { returncode := 3, stdout := "", stderr := "curl: (3) bad URL" } true
          (ProbeResult.ok true) TranscodeResult.ok false).outcome = true ↔ (3 : Int) = 3)) :=
  ⟨by decide, C3_nonzero_command_failed _ _ _ _ _ _ _ _ _ (by decide)⟩

/-- C4 counterexample: for the unterminated-quote input
`curl "https://example.com` the displayed failure is the generic
`An unexpected error occurred: No closing quotation`, which does not name the
offending input (not even its URL), so the claim that the parse failure names
the offending input is false at this input. -/
theorem C4_counterexample :
    (runApp "curl \"https://example.com" "clip" defaultWorld).outcome =
      Outcome.unexpectedError "An unexpected error occurred: No closing quotation" ∧
    occursIn "https://example.com".data
      "An unexpected error occurred: No closing quotation".data = false ∧
    occursIn "curl".data
      "An unexpected error occurred: No closing quotation".data = false := by
  decide

/-- C4 amended: on malformed quoting the `ValueError` from `shlex.split`
aborts the run before `subprocess.run` is reached — no subprocess is
launched, nothing is registered, created or deleted — but it surfaces through
the generic `except Exception` handler as
`An unexpected error occurred: No closing quotation`, a message that does not
name the offending input. -/
theorem C4_unterminated_quote_aborts_before_subprocess (cmd fname : String) (w : World)
    (h1 : cmd ≠ "") (h2 : fname ≠ "")
    (h3 : shlexSplit (removeCarets cmd) = ShlexResult.noClosingQuotation) :
    (runApp cmd fname w).outcome =
      Outcome.unexpectedError (unexpectedDisplay "No closing quotation") ∧
    (runApp cmd fname w).invocation = none ∧
    (runApp cmd fname w).transcodeInvoked = false ∧
    (runApp cmd fname w).registeredAac = none ∧
    (runApp cmd fname w).registeredMp3 = none ∧
    (runApp cmd fname w).finalDiskAac = false ∧
    (runApp cmd fname w).finalDiskMp3 = false ∧
    (runApp cmd fname w).deleted = [] := by
  simp [runApp, runCore, h1, h2, h3, applyCleanup, cleanupPath]

/-- Witness for the amended C4 at end-to-end scenario B. -/
theorem C4_unterminated_quote_aborts_before_subprocess_witness :
    (("curl \"https://example.com" : String) ≠ "") ∧ (("clip" : String) ≠ "") ∧
    shlexSplit (removeCarets "curl \"https://example.com") = ShlexResult.noClosingQuotation ∧
    ((runApp "curl \"https://example.com" "clip" defaultWorld).outcome =
      Outcome.unexpectedError (unexpectedDisplay "No closing quotation") ∧
     (runApp "curl \"https://example.com" "clip" defaultWorld).invocation = none ∧
     (runApp "curl \"https://example.com" "clip" defaultWorld).transcodeInvoked = false ∧
     (runApp "curl \"https://example.com" "clip" defaultWorld).registeredAac = none ∧
     (runApp "curl \"https://example.com" "clip" defaultWorld).registeredMp3 = none ∧
     (runApp "curl \"https://example.com" "clip" defaultWorld).finalDiskAac = false ∧
     (runApp "curl \"https://example.com" "clip" defaultWorld).finalDiskMp3 = false ∧
     (runApp "curl \"https://example.com" "clip" defaultWorld).deleted = []) :=
  ⟨by decide, by decide, by decide,
    C4_unterminated_quote_aborts_before_subprocess "curl \"https://example.com" "clip"
      defaultWorld (by decide) (by decide) (by decide)⟩

/-- C5: the sanitizer removes every caret occurrence from the raw string
(including inside quoted literals), tokenizes the cleaned string with the
POSIX shlex rules and no shell, and appends exactly the two tokens
`--output` and `<basename>.aac`, the basename containing no directory
separator. -/
theorem C5_sanitizer_algorithm (cmd fname : String) (toks : List String)
    (h : shlexSplit (removeCarets cmd) = ShlexResult.ok toks) :
    sanitize cmd fname = ShlexResult.ok (toks ++ ["--output", basename fname ++ ".aac"]) ∧
    (∀ c ∈ (removeCarets cmd).data, c ≠ '^') ∧
    (∀ c ∈ (basename fname).data, c ≠ '/') := by
  refine ⟨?_, removeCarets_no_caret cmd, basename_no_slash fname⟩
  unfold sanitize
  rw [h]

/-- Witness for C5: a caret-carrying command and a traversal-attempting
filename `../clip` yield the appended pair `--output clip.aac`. -/
theorem C5_sanitizer_algorithm_witness :
    shlexSplit (removeCarets "curl ^https://example.com/a.aac") =
      ShlexResult.ok ["curl", "https://example.com/a.aac"] ∧
    (sanitize "curl ^https://example.com/a.aac" "../clip" =
      ShlexResult.ok (["curl", "https://example.com/a.aac"] ++
        ["--output", basename "../clip" ++ ".aac"]) ∧
     (∀ c ∈ (removeCarets "curl ^https://example.com/a.aac").data, c ≠ '^') ∧
     (∀ c ∈ (basename "../clip").data, c ≠ '/')) ∧
    sanitize "curl ^https://example.com/a.aac" "../clip" =
      ShlexResult.ok ["curl", "https://example.com/a.aac", "--output", "clip.aac"] :=
  ⟨by decide,
    C5_sanitizer_algorithm "curl ^https://example.com/a.aac" "../clip"
      ["curl", "https://example.com/a.aac"] (by decide),
    by decide⟩

/-- C6 counterexample: with the transfer tool absent the run reports the
generic `An unexpected error occurred: [Errno 2] No such file or directory:
'curl'` — it is a generic unexpected-error report and carries no actionable
remediation text, so the claim that it is not reported as a generic
unexpected error is false at this input. -/
theorem C6_counterexample :
    (runApp "curl https://example.com/a.aac" "clip" worldNoCurl).outcome =
      Outcome.unexpectedError
        "An unexpected error occurred: [Errno 2] No such file or directory: \x27curl\x27" ∧
    isGenericUnexpectedReport
      (runApp "curl https://example.com/a.aac" "clip" worldNoCurl).outcome = true ∧
    occursIn "install".data
      "An unexpected error occurred: [Errno 2] No such file or directory: \x27curl\x27".data =
      false := by
  decide

/-- C6 amended: program-not-found does stay distinct from the exit-status
`CommandFailed` classification (the classifier never runs), but the
`FileNotFoundError` is caught by the generic `except Exception` handler and
reported as `An unexpected error occurred: [Errno 2] ...` with no actionable
remediation text. -/
theorem C6_not_found_reported_as_generic (cmd fname : String) (w : World) (toks : List String)
    (h1 : cmd ≠ "") (h2 : fname ≠ "")
    (h3 : shlexSplit (removeCarets cmd) = ShlexResult.ok toks)
    (h4 : w.executableFound = false) :
    (runApp cmd fname w).outcome =
      Outcome.unexpectedError
        (fileNotFoundDisplay (toks ++ ["--output", basename fname ++ ".aac"])) ∧
    (∀ s e b, (runApp cmd fname w).outcome ≠ Outcome.commandFailed s e b) ∧
    isGenericUnexpectedReport (runApp cmd fname w).outcome = true ∧
    (runApp cmd fname w).transcodeInvoked = false := by
  simp [runApp, runCore, h1, h2, h3, h4, applyCleanup, cleanupPath, isGenericUnexpectedReport]

/-- Witness for the amended C6 with the transfer tool absent. -/
theorem C6_not_found_reported_as_generic_witness :
    (("curl https://example.com/a.aac" : String) ≠ "") ∧ (("clip" : String) ≠ "") ∧
    shlexSplit (removeCarets "curl https://example.com/a.aac") =
      ShlexResult.ok ["curl", "https://example.com/a.aac"] ∧
    worldNoCurl.executableFound = false ∧
    ((runApp "curl https://example.com/a.aac" "clip" worldNoCurl).outcome =
      Outcome.unexpectedError
        (fileNotFoundDisplay (["curl", "https://example.com/a.aac"] ++
          ["--output", basename "clip" ++ ".aac"])) ∧
     (∀ s e b, (runApp "curl https://example.com/a.aac" "clip" worldNoCurl).outcome ≠
       Outcome.commandFailed s e b) ∧
     isGenericUnexpectedReport
       (runApp "curl https://example.com/a.aac" "clip" worldNoCurl).outcome = true ∧
     (runApp "curl https://example.com/a.aac" "clip" worldNoCurl).transcodeInvoked = false) :=
  ⟨by decide, by decide, by decide, by decide,
    C6_not_found_reported_as_generic "curl https://example.com/a.aac" "clip" worldNoCurl
      ["curl", "https://example.com/a.aac"] (by decide) (by decide) (by decide) (by decide)⟩

/-- C7 counterexample: when the transfer tool exits non-zero after already
creating the output file (curl exit 18, partial file), the created path is
never registered (`aac_file` is only set in the success branch, line 110) and
survives the `finally` block — so the claim that every artifact path created
by the executor has been registered (and cleaned) is false at this input. -/
theorem C7_counterexample :
    worldPartialFile.executorCreatesFile = true ∧
    (runApp "curl https://example.com/a.aac" "clip" worldPartialFile).registeredAac = none ∧
    (runApp "curl https://example.com/a.aac" "clip" worldPartialFile).registeredMp3 = none ∧
    (runApp "curl https://example.com/a.aac" "clip" worldPartialFile).finalDiskAac = true ∧
    (runApp "curl https://example.com/a.aac" "clip" worldPartialFile).deleted = [] := by
  decide

/-- C7 amended: every path that was actually registered (`aac_file`,
`mp3_file_path`) and whose removal succeeds is gone after the `finally`
block, and removal failures only add warnings — they never change the
outcome or the registrations.  (Paths created by a failing download or a
failing conversion are not registered and are not cleaned up.) -/
theorem C7_registered_paths_cleaned (cmd fname : String) (w : World) :
    (∀ p, (runApp cmd fname w).registeredAac = some p → w.removeAacFails = false →
      (runApp cmd fname w).finalDiskAac = false) ∧
    (∀ p, (runApp cmd fname w).registeredMp3 = some p → w.removeMp3Fails = false →
      (runApp cmd fname w).finalDiskMp3 = false) ∧
    (∀ fa fm, (runApp cmd fname { w with removeAacFails := fa, removeMp3Fails := fm }).outcome =
      (runApp cmd fname w).outcome) ∧
    (∀ fa fm,
      (runApp cmd fname { w with removeAacFails := fa, removeMp3Fails := fm }).registeredAac =
        (runApp cmd fname w).registeredAac ∧
      (runApp cmd fname { w with removeAacFails := fa, removeMp3Fails := fm }).registeredMp3 =
        (runApp cmd fname w).registeredMp3) := by
  refine ⟨?_, ?_, ?_, ?_⟩
  · intro p hp hf
    have hp' : (runCore cmd fname w.executableFound w.exec w.executorCreatesFile
        w.probeResult w.transcodeResult w.transcodeCreatesFile).registeredAac = some p := hp
    show (cleanupPath (runCore cmd fname w.executableFound w.exec w.executorCreatesFile
        w.probeResult w.transcodeResult w.transcodeCreatesFile).registeredAac
      (runCore cmd fname w.executableFound w.exec w.executorCreatesFile
        w.probeResult w.transcodeResult w.transcodeCreatesFile).diskAac
      w.removeAacFails).1 = false
    rw [hf]
    exact cleanupPath_fst_false _ _ p hp'
  · intro p hp hf
    have hp' : (runCore cmd fname w.executableFound w.exec w.executorCreatesFile
        w.probeResult w.transcodeResult w.transcodeCreatesFile).registeredMp3 = some p := hp
    show (cleanupPath (runCore cmd fname w.executableFound w.exec w.executorCreatesFile
        w.probeResult w.transcodeResult w.transcodeCreatesFile).registeredMp3
      (runCore cmd fname w.executableFound w.exec w.executorCreatesFile
        w.probeResult w.transcodeResult w.transcodeCreatesFile).diskMp3
      w.removeMp3Fails).1 = false
    rw [hf]
    exact cleanupPath_fst_false _ _ p hp'
  · intro fa fm
    rfl
  · intro fa fm
    exact ⟨rfl, rfl⟩

/-- Witness for the amended C7: a fully successful run registers both
`clip.aac` and `clip.mp3` and neither is left on disk. -/
theorem C7_registered_paths_cleaned_witness :
    (runApp "curl https://example.com/a.aac" "clip" defaultWorld).registeredAac =
      some "clip.aac" ∧
    defaultWorld.removeAacFails = false ∧
    (runApp "curl https://example.com/a.aac" "clip" defaultWorld).finalDiskAac = false ∧
    (runApp "curl https://example.com/a.aac" "clip" defaultWorld).registeredMp3 =
      some "clip.mp3" ∧
    (runApp "curl https://example.com/a.aac" "clip" defaultWorld).finalDiskMp3 = false :=
  ⟨by decide, by decide,
    (C7_registered_paths_cleaned "curl https://example.com/a.aac" "clip" defaultWorld).1
      "clip.aac" (by decide) rfl,
    by decide,
    (C7_registered_paths_cleaned "curl https://example.com/a.aac" "clip" defaultWorld).2.1
      "clip.mp3" (by decide) rfl⟩

/-- C8: under the evidently intended semantics of the probe step (the
module-level `return` statements of source lines 120, 127, 130 read as early
exits — as written they are a `SyntaxError: return outside function`, so the
committed file cannot run at all), a probe that finds no streams or fails
short-circuits to the distinct invalid-artifact / probe-failure outcome and
the conversion step is never invoked. -/
theorem C8_probe_failure_short_circuits (aacF mp3F : String) (inv : ProcessInvocation)
    (tk : ShlexResult) (r : ExecutionResult) (probe : ProbeResult) (t : TranscodeResult)
    (tc : Bool) (h0 : r.returncode = 0) :
    (probe = ProbeResult.ok false →
      (classifyAndConvert aacF mp3F inv tk r true probe t tc).outcome =
        Outcome.invalidArtifact aacF ∧
      (classifyAndConvert aacF mp3F inv tk r true probe t tc).transcodeInvoked = false) ∧
    (∀ m, probe = ProbeResult.ffmpegError m →
      (classifyAndConvert aacF mp3F inv tk r true probe t tc).outcome =
        Outcome.probeError m ∧
      (classifyAndConvert aacF mp3F inv tk r true probe t tc).transcodeInvoked = false) := by
  constructor
  · intro hp
    subst hp
    simp [classifyAndConvert, h0]
  · intro m hp
    subst hp
    simp [classifyAndConvert, h0]

/-- Witness for C8 at a probe that reports no streams. -/
theorem C8_probe_failure_short_circuits_witness :
    (({ returncode := 0, stdout := "", stderr := "" } : ExecutionResult).returncode = 0) ∧
    ((classifyAndConvert "clip.aac" "clip.mp3" (subprocessRun ["curl"]) (ShlexResult.ok ["curl"])
        { returncode := 0, stdout := "", stderr := "" } true (ProbeResult.ok false)
        TranscodeResult.ok false).outcome = Outcome.invalidArtifact "clip.aac" ∧
     (classifyAndConvert "clip.aac" "clip.mp3" (subprocessRun ["curl"]) (ShlexResult.ok ["curl"])
        { returncode := 0, stdout := "", stderr := "" } true (ProbeResult.ok false)
        TranscodeResult.ok false).transcodeInvoked = false) :=
  ⟨rfl,
    (C8_probe_failure_short_circuits "clip.aac" "clip.mp3" (subprocessRun ["curl"])
      (ShlexResult.ok ["curl"]) { returncode := 0, stdout := "", stderr := "" }
      (ProbeResult.ok false) TranscodeResult.ok false rfl).1 rfl⟩

/-- C9: an empty command string or an empty filename is reported as the
corresponding validation error and the run performs nothing else — no
tokenization, no subprocess, no registration, no file on disk, no deletion,
no warning (source lines 54-57). -/
theorem C9_missing_input_validation_only (cmd fname : String) (w : World)
    (h : cmd = "" ∨ fname = "") :
    ((runApp cmd fname w).outcome = Outcome.validationErrorNoCommand ∨
     (runApp cmd fname w).outcome = Outcome.validationErrorNoFilename) ∧
    (runApp cmd fname w).invocation = none ∧
    (runApp cmd fname w).tokenized = none ∧
    (runApp cmd fname w).registeredAac = none ∧
    (runApp cmd fname w).registeredMp3 = none ∧
    (runApp cmd fname w).finalDiskAac = false ∧
    (runApp cmd fname w).finalDiskMp3 = false ∧
    (runApp cmd fname w).deleted = [] ∧
    (runApp cmd fname w).cleanupWarnings = [] := by
  rcases h with h | h
  · subst h
    simp [runApp, runCore, applyCleanup, cleanupPath]
  · subst h
    by_cases hc : cmd = ""
    · subst hc
      simp [runApp, runCore, applyCleanup, cleanupPath]
    · simp [runApp, runCore, hc, applyCleanup, cleanupPath]

/-- Witness for C9 at an empty command string. -/
theorem C9_missing_input_validation_only_witness :
    (("" : String) = "" ∨ ("clip" : String) = "") ∧
    (((runApp "" "clip" defaultWorld).outcome = Outcome.validationErrorNoCommand ∨
      (runApp "" "clip" defaultWorld).outcome = Outcome.validationErrorNoFilename) ∧
     (runApp "" "clip" defaultWorld).invocation = none ∧
     (runApp "" "clip" defaultWorld).tokenized = none ∧
     (runApp "" "clip" defaultWorld).registeredAac = none ∧
     (runApp "" "clip" defaultWorld).registeredMp3 = none ∧
     (runApp "" "clip" defaultWorld).finalDiskAac = false ∧
     (runApp "" "clip" defaultWorld).finalDiskMp3 = false ∧
     (runApp "" "clip" defaultWorld).deleted = [] ∧
     (runApp "" "clip" defaultWorld).cleanupWarnings = []) :=
  ⟨Or.inl rfl, C9_missing_input_validation_only "" "clip" defaultWorld (Or.inl rfl)⟩

/-- C10: the sanitized vector is exactly the cleaned command's tokens, in
order and unmodified, followed by the appended `--output` pair as its final
two elements; no user token is removed, filtered or reordered. -/
theorem C10_vector_is_tokens_then_output_pair (cmd fname : String) (toks : List String)
    (h : shlexSplit (removeCarets cmd) = ShlexResult.ok toks) :
    sanitize cmd fname = ShlexResult.ok (toks ++ ["--output", basename fname ++ ".aac"]) ∧
    (toks ++ ["--output", basename fname ++ ".aac"]).take toks.length = toks ∧
    (toks ++ ["--output", basename fname ++ ".aac"]).drop toks.length =
      ["--output", basename fname ++ ".aac"] ∧
    ∀ t ∈ toks, t ∈ toks ++ ["--output", basename fname ++ ".aac"] := by
  refine ⟨?_, ?_, ?_, ?_⟩
  · unfold sanitize
    rw [h]
  · exact List.take_left toks _
  · exact List.drop_left toks _
  · intro t ht
    exact List.mem_append_left _ ht

/-- Witness for C10: a user command that already carries `--output ignored`
keeps it, ahead of the appended pair. -/
theorem C10_vector_is_tokens_then_output_pair_witness :
    shlexSplit (removeCarets "curl https://example.com/a.aac --output ignored") =
      ShlexResult.ok ["curl", "https://example.com/a.aac", "--output", "ignored"] ∧
    (sanitize "curl https://example.com/a.aac --output ignored" "clip" =
      ShlexResult.ok (["curl", "https://example.com/a.aac", "--output", "ignored"] ++
        ["--output", basename "clip" ++ ".aac"]) ∧
     (["curl", "https://example.com/a.aac", "--output", "ignored"] ++
        ["--output", basename "clip" ++ ".aac"]).take 4 =
       ["curl", "https://example.com/a.aac", "--output", "ignored"] ∧
     (["curl", "https://example.com/a.aac", "--output", "ignored"] ++
        ["--output", basename "clip" ++ ".aac"]).drop 4 =
       ["--output", basename "clip" ++ ".aac"] ∧
     ∀ t ∈ ["curl", "https://example.com/a.aac", "--output", "ignored"],
       t ∈ ["curl", "https://example.com/a.aac", "--output", "ignored"] ++
         ["--output", basename "clip" ++ ".aac"]) ∧
    sanitize "curl https://example.com/a.aac --output ignored" "clip" =
      ShlexResult.ok
        ["curl", "https://example.com/a.aac", "--output", "ignored", "--output", "clip.aac"] :=
  ⟨by decide,
    C10_vector_is_tokens_then_output_pair "curl https://example.com/a.aac --output ignored"
      "clip" ["curl", "https://example.com/a.aac", "--output", "ignored"] (by decide),
    by decide⟩

end GptTts
